import Mathlib

/-!
A verification development for the Chat-Assistant repository (src/app.py).

The program is a single-file chat front-end.  Its state lives in a session
store with four fields (`chat_history`, `conversation`, `model`,
`memory_length`); the operations are `initialize_session_state`,
`create_conversation`, `handle_user_input`, `reset_conversation`,
`handle_model_change`, and the `main` event-handling flow.

External collaborators (the langchain window memory, the Groq chat client
and the `invoke` call of the conversation chain) are not part of the
repository; they are modelled from the stated contract of the spec, marked
`Modelled from the spec:` in its doc comment.  The remote completion call
itself is abstracted as an oracle supplied to `handle_user_input`.
-/

namespace ChatAssistant

/-- One exchanged turn `{human: text, AI: text}` (the dict built at
src/app.py line 74). -/
structure Turn where
  human : String
  AI : String
deriving DecidableEq, Repr

/-- The list of supported models (src/app.py lines 14-17). -/
def SUPPORTED_MODELS : List String :=
  ["llama-3.1-8b-instant", "deepseek-r1-distill-qwen-32b"]

/-- Modelled from the spec: `ConversationBufferWindowMemory(k=...)` is an
external langchain object; per the spec it is "a bounded-window memory
keeping at most `memory_window` most-recent Turns".  `messages` records
every saved turn, oldest first; the window size is `k`. -/
structure BufferWindowMemory where
  k : Nat
  messages : List Turn
deriving DecidableEq, Repr

/-- Modelled from the spec: `memory.save_context` with an input and output text
inserts one turn "in order (oldest first)" (src/app.py line 42 calls it for
each turn of the history). -/
def BufferWindowMemory.save_context (m : BufferWindowMemory)
    (input output : String) : BufferWindowMemory :=
  { m with messages := m.messages ++ [⟨input, output⟩] }

/-- Modelled from the spec: the context window the memory exposes to the
model — "only the most recent `memory_window` turns are retained in
context per the bounded-window discard policy (oldest-evicted-first)". -/
def BufferWindowMemory.buffer (m : BufferWindowMemory) : List Turn :=
  m.messages.drop (m.messages.length - m.k)

/-- The remote chat client: `ChatGroq(groq_api_key=..., model_name=...)`
(src/app.py lines 45-48). -/
structure ChatGroqClient where
  api_key : String
  model_name : String
deriving DecidableEq, Repr

/-- The error kinds the spec assigns to Conversation Session construction. -/
inductive BuildError where
  | CredentialMissing
  | ConfigurationError
deriving DecidableEq, Repr

/-- Modelled from the spec: construction of the external Groq client
"fails with `ConfigurationError` if `model` is not in the supported set;
fails with `CredentialMissing` if no credential is available", and
performs "no network call at build time". -/
def mkChatGroq (apiKey : Option String) (model : String) :
    Except BuildError ChatGroqClient :=
  match apiKey with
  | none => .error .CredentialMissing
  | some key =>
      if model ∈ SUPPORTED_MODELS then .ok ⟨key, model⟩
      else .error .ConfigurationError

/-- The conversation chain returned by `ConversationChain(llm=..., memory=...)`
(src/app.py lines 50-53). -/
structure ConversationChain where
  llm : ChatGroqClient
  memory : BufferWindowMemory
deriving DecidableEq, Repr

/-- `create_conversation(model, memory_length)` (src/app.py lines 36-53):
build the window memory, preload every turn of the given chat history in
order, then build the Groq client and wrap both in a chain.  The
credential and the history are passed explicitly here (in the source they
are the module global `groq_api_key` and `st.session_state.chat_history`). -/
def create_conversation (apiKey : Option String) (chat_history : List Turn)
    (model : String) (memory_length : Nat) :
    Except BuildError ConversationChain :=
  let memory := chat_history.foldl
    (fun m message => m.save_context message.human message.AI)
    ⟨memory_length, []⟩
  match mkChatGroq apiKey model with
  | .error e => .error e
  | .ok groq_chat => .ok ⟨groq_chat, memory⟩

/-- Preloading a history turn-by-turn appends it, in order, to whatever
the memory already holds. -/
theorem preload_messages (hist : List Turn) (k : Nat) (init : List Turn) :
    (hist.foldl (fun m message => m.save_context message.human message.AI)
      (⟨k, init⟩ : BufferWindowMemory)).messages = init ++ hist := by
  induction hist generalizing init with
  | nil => simp
  | cons t rest ih =>
      rw [List.foldl_cons]
      have hstep : (⟨k, init⟩ : BufferWindowMemory).save_context t.human t.AI
          = ⟨k, init ++ [⟨t.human, t.AI⟩]⟩ := rfl
      rw [hstep, ih]
      simp

/-- Preloading never changes the window size. -/
theorem preload_k (hist : List Turn) (k : Nat) (init : List Turn) :
    (hist.foldl (fun m message => m.save_context message.human message.AI)
      (⟨k, init⟩ : BufferWindowMemory)).k = k := by
  induction hist generalizing init with
  | nil => rfl
  | cons t rest ih => exact ih _

/-- With a credential present and a supported model, `create_conversation`
returns the chain whose memory holds exactly the given history. -/
theorem create_conversation_ok (key : String) (hist : List Turn)
    (model : String) (k : Nat) (hm : model ∈ SUPPORTED_MODELS) :
    create_conversation (some key) hist model k =
      .ok ⟨⟨key, model⟩, ⟨k, hist⟩⟩ := by
  unfold create_conversation mkChatGroq
  simp only [if_pos hm]
  congr 1
  have h1 := preload_messages hist k []
  have h2 := preload_k hist k []
  cases hmem : hist.foldl
      (fun m message => m.save_context message.human message.AI)
      (⟨k, []⟩ : BufferWindowMemory) with
  | mk kk msgs =>
      rw [hmem] at h1 h2
      simp at h1 h2
      subst h1
      subst h2
      rfl

/-- Claim C1: for every `memory_window` k in [1,15] and every transcript of
length n, rebuilding the conversation via `create_conversation` produces a
context window of exactly `min n k` turns, and those turns are the k most
recent turns of the transcript in their original chronological order. -/
theorem claim_C1 (key : String) (hist : List Turn) (model : String)
    (k : Nat) (hk1 : 1 ≤ k) (hk15 : k ≤ 15)
    (hm : model ∈ SUPPORTED_MODELS) :
    ∃ conv, create_conversation (some key) hist model k = .ok conv ∧
      conv.memory.buffer.length = min hist.length k ∧
      conv.memory.buffer = hist.drop (hist.length - k) := by
  refine ⟨⟨⟨key, model⟩, ⟨k, hist⟩⟩, create_conversation_ok key hist model k hm, ?_, rfl⟩
  simp [BufferWindowMemory.buffer]
  omega

/-- Witness for C1: three turns, window 2 — the context holds exactly the
two most recent turns in order. -/
theorem claim_C1_witness :
    ∃ conv, create_conversation (some "sk") [⟨"a", "1"⟩, ⟨"b", "2"⟩, ⟨"c", "3"⟩]
        "llama-3.1-8b-instant" 2 = .ok conv ∧
      conv.memory.buffer.length = min 3 2 ∧
      conv.memory.buffer = [⟨"b", "2"⟩, ⟨"c", "3"⟩] := by
  have h := claim_C1 "sk" [⟨"a", "1"⟩, ⟨"b", "2"⟩, ⟨"c", "3"⟩]
    "llama-3.1-8b-instant" 2 (by decide) (by decide) (by decide)
  obtain ⟨conv, h1, h2, h3⟩ := h
  exact ⟨conv, h1, by simpa using h2, by simpa using h3⟩

/-- The session store after initialization: the four variables the program
keeps in `st.session_state` (src/app.py lines 27-34). -/
structure SessionState where
  chat_history : List Turn
  conversation : Option ConversationChain
  model : String
  memory_length : Nat
deriving DecidableEq, Repr

/-- The session store as `initialize_session_state` sees it: each variable
may or may not exist yet (`x not in st.session_state`).  `none` means
the key is absent. -/
structure RawSessionState where
  chat_history : Option (List Turn)
  conversation : Option (Option ConversationChain)
  model : Option String
  memory_length : Option Nat
deriving DecidableEq, Repr

/-- `initialize_session_state()` (src/app.py lines 25-34): fill in each
missing variable with its default; leave present ones alone. -/
def initialize_session_state (s : RawSessionState) : RawSessionState :=
  let s1 := if s.chat_history.isNone then { s with chat_history := some [] } else s
  let s2 := if s1.conversation.isNone then { s1 with conversation := some none } else s1
  let s3 := if s2.model.isNone then
    { s2 with model := some (SUPPORTED_MODELS.get ⟨0, by decide⟩) } else s2
  if s3.memory_length.isNone then { s3 with memory_length := some 5 } else s3

/-- Claim C7: `initialize_session_state` is idempotent pure default-fill —
every already-present field is left untouched, every absent field gets its
default (empty transcript, first supported model, window 5, unset
conversation), and it can raise no error. -/
theorem claim_C7 (s : RawSessionState) :
    (initialize_session_state s).chat_history = some (s.chat_history.getD []) ∧
    (initialize_session_state s).conversation = some (s.conversation.getD none) ∧
    (initialize_session_state s).model
      = some (s.model.getD (SUPPORTED_MODELS.get ⟨0, by decide⟩)) ∧
    (initialize_session_state s).memory_length = some (s.memory_length.getD 5) ∧
    initialize_session_state (initialize_session_state s)
      = initialize_session_state s := by
  obtain ⟨ch, cv, md, ml⟩ := s
  cases ch <;> cases cv <;> cases md <;> cases ml <;>
    simp [initialize_session_state]

/-- What one call of `conversation.invoke` does on the
remote side: either the reply text is produced, or some exception is
raised (network failure, quota, malformed response, timeout, ...). -/
inductive RemoteResult where
  | ok (reply : String)
  | exn (msg : String)
deriving DecidableEq, Repr

/-- The remote completion call, abstracted: given the chain and the user
question it produces the reply or raises. -/
def RemoteOracle : Type := ConversationChain → String → RemoteResult

/-- Messages the handler renders into the page. -/
inductive Shown where
  | userMsg (s : String)
  | assistantReply (s : String)
  | errorMsg (s : String)
deriving DecidableEq, Repr

/-- How one turn execution ended. -/
inductive TurnReport where
  | noop
  | success (reply : String)
  | failure (msg : String)
deriving DecidableEq, Repr

/-- The observable result of one `handle_user_input` call. -/
structure TurnOutcome where
  state : SessionState
  displayed : List Shown
  remoteCalls : Nat
  report : TurnReport
deriving DecidableEq, Repr

/-- The Python `str.strip()` builtin on the underlying character list: drop
whitespace from the front and from the back. -/
def stripChars (cs : List Char) : List Char :=
  ((cs.dropWhile Char.isWhitespace).reverse.dropWhile Char.isWhitespace).reverse

/-- The Python expression `user_question.strip()` (src/app.py line 57). -/
def pyStrip (s : String) : String := ⟨stripChars s.data⟩

/-- The body of the `try` block (src/app.py lines 70-75): call
`st.session_state.conversation.invoke(...)` and record the turn.  When the
conversation was never built (`None`), the attribute access itself raises;
modelled from the collapse, in the spec, of every exception into one
kind, `invoke` on success also appends the turn to the memory held by the
chain (per the spec, the pair simultaneously becomes part of the bounded
memory owned by the Conversation Session, with no separate re-sync step). -/
def turn_try_block (oracle : RemoteOracle) (conv : Option ConversationChain)
    (q : String) : Except String (String × ConversationChain) :=
  match conv with
  | none => .error "AttributeError: NoneType object has no attribute invoke"
  | some chain =>
      match oracle chain q with
      | .exn msg => .error msg
      | .ok reply =>
          .ok (reply, { chain with memory := chain.memory.save_context q reply })

/-- `handle_user_input(user_question)` (src/app.py lines 55-83).  The
result is `Except`: `.error` would mean an exception escaped the handler;
the `except Exception` at line 81 turns every exception of the try block
into a rendered error message instead. -/
def handle_user_input (oracle : RemoteOracle) (st : SessionState)
    (user_question : String) : Except String TurnOutcome :=
  if pyStrip user_question = "" then
    .ok ⟨st, [], 0, .noop⟩
  else
    match turn_try_block oracle st.conversation user_question with
    | .error msg =>
        .ok ⟨st, [.userMsg user_question, .errorMsg ("⚠️ Error: " ++ msg)],
          (match st.conversation with | none => 0 | some _ => 1), .failure msg⟩
    | .ok (reply, chain) =>
        .ok ⟨{ st with
                chat_history := st.chat_history ++ [⟨user_question, reply⟩],
                conversation := some chain },
          [.userMsg user_question, .assistantReply reply], 1, .success reply⟩

/-- Claim C3: an input that is empty or whitespace-only after trimming is
a silent no-op — transcript and conversation unchanged, nothing rendered,
no remote call. -/
theorem claim_C3 (oracle : RemoteOracle) (st : SessionState) (q : String)
    (hq : pyStrip q = "") :
    handle_user_input oracle st q = .ok ⟨st, [], 0, .noop⟩ := by
  simp [handle_user_input, hq]

/-- Witness for C3 at a whitespace-only input. -/
theorem claim_C3_witness :
    handle_user_input (fun _ _ => .ok "hi")
      ⟨[], none, "llama-3.1-8b-instant", 5⟩ "  " =
      .ok ⟨⟨[], none, "llama-3.1-8b-instant", 5⟩, [], 0, .noop⟩ :=
  claim_C3 (fun _ _ => .ok "hi") ⟨[], none, "llama-3.1-8b-instant", 5⟩ "  "
    (by decide)

/-- Claim C2: when the remote call raises, the failure is rendered as an
error message, the transcript is not appended to, and the whole session
state — the conversation included — is exactly what it was before, ready
for the next attempt. -/
theorem claim_C2 (oracle : RemoteOracle) (st : SessionState) (q : String)
    (chain : ConversationChain) (msg : String)
    (hconv : st.conversation = some chain)
    (hremote : oracle chain q = .exn msg)
    (hq : pyStrip q ≠ "") :
    handle_user_input oracle st q =
      .ok ⟨st, [.userMsg q, .errorMsg ("⚠️ Error: " ++ msg)], 1, .failure msg⟩ := by
  simp [handle_user_input, hq, turn_try_block, hconv, hremote]

/-- Witness for C2: a concrete failing remote call leaves the concrete
state untouched and renders the error. -/
theorem claim_C2_witness :
    handle_user_input (fun _ _ => .exn "boom")
      ⟨[⟨"a", "1"⟩], some ⟨⟨"sk", "llama-3.1-8b-instant"⟩, ⟨5, [⟨"a", "1"⟩]⟩⟩,
        "llama-3.1-8b-instant", 5⟩ "hello" =
      .ok ⟨⟨[⟨"a", "1"⟩], some ⟨⟨"sk", "llama-3.1-8b-instant"⟩, ⟨5, [⟨"a", "1"⟩]⟩⟩,
            "llama-3.1-8b-instant", 5⟩,
        [.userMsg "hello", .errorMsg ("⚠️ Error: " ++ "boom")], 1, .failure "boom"⟩ :=
  claim_C2 (fun _ _ => .exn "boom")
    ⟨[⟨"a", "1"⟩], some ⟨⟨"sk", "llama-3.1-8b-instant"⟩, ⟨5, [⟨"a", "1"⟩]⟩⟩,
      "llama-3.1-8b-instant", 5⟩ "hello"
    ⟨⟨"sk", "llama-3.1-8b-instant"⟩, ⟨5, [⟨"a", "1"⟩]⟩⟩ "boom" rfl rfl (by decide)

/-- Claim C10: `handle_user_input` never lets an exception escape — for
every input, every session state (the never-built, `None` conversation
included) and every behavior of the remote call, the handler returns
normally, and an exception inside the try block is turned into a rendered
error message. -/
theorem claim_C10 (oracle : RemoteOracle) (st : SessionState) (q : String) :
    ∃ out, handle_user_input oracle st q = .ok out ∧
      (out.report = .noop ∨ (∃ r, out.report = .success r) ∨
        (∃ m, out.report = .failure m ∧
          Shown.errorMsg ("⚠️ Error: " ++ m) ∈ out.displayed)) := by
  by_cases hq : pyStrip q = ""
  · exact ⟨⟨st, [], 0, .noop⟩, by simp [handle_user_input, hq], Or.inl rfl⟩
  · cases htry : turn_try_block oracle st.conversation q with
    | error msg =>
        refine ⟨⟨st, [.userMsg q, .errorMsg ("⚠️ Error: " ++ msg)],
          (match st.conversation with | none => 0 | some _ => 1), .failure msg⟩,
          ?_, Or.inr (Or.inr ⟨msg, rfl, by simp⟩)⟩
        simp [handle_user_input, hq, htry]
    | ok pr =>
        obtain ⟨reply, chain⟩ := pr
        refine ⟨⟨{ st with
            chat_history := st.chat_history ++ [⟨q, reply⟩],
            conversation := some chain },
          [.userMsg q, .assistantReply reply], 1, .success reply⟩,
          ?_, Or.inr (Or.inl ⟨reply, rfl⟩)⟩
        simp [handle_user_input, hq, htry]

/-- One submission event: the text the user typed and the remote behavior
in effect for that attempt. -/
def TurnEvent : Type := String × RemoteOracle

/-- The state after one `handle_user_input` call.  An exception escaping
the handler would abort the script run and leave the state as it was;
`claim_C10` shows that arm is never taken. -/
def runStep (ev : TurnEvent) (st : SessionState) : SessionState :=
  match handle_user_input ev.2 st ev.1 with
  | .ok out => out.state
  | .error _ => st

/-- The session state after a sequence of submissions. -/
def runTurns : List TurnEvent → SessionState → SessionState
  | [], st => st
  | ev :: rest, st => runTurns rest (runStep ev st)

/-- How many submissions of the sequence succeed (report a reply). -/
def countSuccesses : List TurnEvent → SessionState → Nat
  | [], _ => 0
  | ev :: rest, st =>
      (match handle_user_input ev.2 st ev.1 with
       | .ok ⟨_, _, _, .success _⟩ => 1
       | _ => 0) + countSuccesses rest (runStep ev st)

/-- One step grows the transcript by one exactly when it succeeds, and by
nothing otherwise. -/
theorem runStep_length (ev : TurnEvent) (st : SessionState) :
    (runStep ev st).chat_history.length = st.chat_history.length +
      (match handle_user_input ev.2 st ev.1 with
       | .ok ⟨_, _, _, .success _⟩ => 1
       | _ => 0) := by
  unfold runStep handle_user_input
  by_cases hq : pyStrip ev.1 = ""
  · simp [hq]
  · cases htry : turn_try_block ev.2 st.conversation ev.1 with
    | error msg => simp [hq, htry]
    | ok pr => simp [hq, htry]

/-- Over any sequence from any starting state, the transcript grows by
exactly the number of successful submissions. -/
theorem runTurns_length (events : List TurnEvent) (st : SessionState) :
    (runTurns events st).chat_history.length =
      st.chat_history.length + countSuccesses events st := by
  induction events generalizing st with
  | nil => simp [runTurns, countSuccesses]
  | cons ev rest ih =>
      rw [runTurns, countSuccesses, ih, runStep_length]
      omega

/-- Claim C4: starting from an empty transcript, after any sequence of
turn executions the transcript length equals the number of successful
submissions — failed and empty submissions contribute nothing, each
success exactly one `{human, AI}` pair. -/
theorem claim_C4 (events : List TurnEvent) (conv : Option ConversationChain)
    (model : String) (memory_length : Nat) :
    (runTurns events ⟨[], conv, model, memory_length⟩).chat_history.length =
      countSuccesses events ⟨[], conv, model, memory_length⟩ := by
  have h := runTurns_length events ⟨[], conv, model, memory_length⟩
  simpa using h

/-- `reset_conversation()` (src/app.py lines 85-92): clear the history,
then rebuild the conversation from the now-empty history under the current
model and window.  If the rebuild raises, the history is already cleared
and the old conversation handle is left in place; the error is returned as
the second component.  (`st.rerun()` only re-renders; it is not state.) -/
def reset_conversation (apiKey : Option String) (st : SessionState) :
    SessionState × Option BuildError :=
  let st1 := { st with chat_history := ([] : List Turn) }
  match create_conversation apiKey st1.chat_history st1.model st1.memory_length with
  | .error e => (st1, some e)
  | .ok conv => ({ st1 with conversation := some conv }, none)

/-- `handle_model_change()` (src/app.py lines 94-99): rebuild the
conversation from the existing history under the current model and
window. -/
def handle_model_change (apiKey : Option String) (st : SessionState) :
    SessionState × Option BuildError :=
  match create_conversation apiKey st.chat_history st.model st.memory_length with
  | .error e => (st, some e)
  | .ok conv => ({ st with conversation := some conv }, none)

/-- The sidebar change detection (src/app.py lines 126-140): if the
selected model differs from the stored one, store it and rebuild; then, if
the selected window differs, store it and rebuild.  A raise from the first
rebuild aborts the script run before the window comparison. -/
def apply_config_change (apiKey : Option String) (st : SessionState)
    (selModel : String) (selMem : Nat) : SessionState × Option BuildError :=
  let r1 := if selModel = st.model then (st, none)
    else handle_model_change apiKey { st with model := selModel }
  match r1.2 with
  | some e => (r1.1, some e)
  | none =>
      if selMem = r1.1.memory_length then (r1.1, none)
      else handle_model_change apiKey { r1.1 with memory_length := selMem }

/-- Claim C6: reset is idempotent — with the current configuration valid,
resetting succeeds, and resetting again from the resulting state yields
exactly the same state (empty transcript, conversation freshly rebuilt
from the empty transcript). -/
theorem claim_C6 (key : String) (st : SessionState)
    (hm : st.model ∈ SUPPORTED_MODELS) :
    (reset_conversation (some key) st).2 = none ∧
    reset_conversation (some key) (reset_conversation (some key) st).1 =
      reset_conversation (some key) st := by
  have h1 := create_conversation_ok key [] st.model st.memory_length hm
  constructor
  · simp [reset_conversation, h1]
  · simp [reset_conversation, h1]

/-- Witness for C6 on a concrete populated state. -/
theorem claim_C6_witness :
    (reset_conversation (some "sk")
       ⟨[⟨"a", "1"⟩], none, "llama-3.1-8b-instant", 5⟩).2 = none ∧
    reset_conversation (some "sk")
        (reset_conversation (some "sk")
          ⟨[⟨"a", "1"⟩], none, "llama-3.1-8b-instant", 5⟩).1 =
      reset_conversation (some "sk")
        ⟨[⟨"a", "1"⟩], none, "llama-3.1-8b-instant", 5⟩ :=
  claim_C6 "sk" ⟨[⟨"a", "1"⟩], none, "llama-3.1-8b-instant", 5⟩ (by decide)

/-- Claim C5: a configuration change (a differing model or window value)
leaves the transcript untouched; only the configuration fields are
updated, and the conversation is rebuilt from the existing transcript, its
context window holding the `selMem` most recent turns. -/
theorem claim_C5 (key : String) (st : SessionState)
    (selModel : String) (selMem : Nat)
    (hm1 : st.model ∈ SUPPORTED_MODELS)
    (hm2 : selModel ∈ SUPPORTED_MODELS)
    (hchange : selModel ≠ st.model ∨ selMem ≠ st.memory_length) :
    (apply_config_change (some key) st selModel selMem).2 = none ∧
    (apply_config_change (some key) st selModel selMem).1.chat_history
      = st.chat_history ∧
    (apply_config_change (some key) st selModel selMem).1.model = selModel ∧
    (apply_config_change (some key) st selModel selMem).1.memory_length
      = selMem ∧
    ∃ conv, (apply_config_change (some key) st selModel selMem).1.conversation
        = some conv ∧
      conv.memory.buffer
        = st.chat_history.drop (st.chat_history.length - selMem) := by
  by_cases hmod : selModel = st.model
  · have hmem : selMem ≠ st.memory_length := by
      rcases hchange with h | h
      · exact absurd hmod h
      · exact h
    have h1 := create_conversation_ok key st.chat_history st.model selMem hm1
    subst hmod
    simp [apply_config_change, handle_model_change, hmem, h1,
      BufferWindowMemory.buffer]
  · have h1 := create_conversation_ok key st.chat_history selModel
      st.memory_length hm2
    by_cases hmem : selMem = st.memory_length
    · subst hmem
      simp [apply_config_change, handle_model_change, hmod, h1,
        BufferWindowMemory.buffer]
    · have h2 := create_conversation_ok key st.chat_history selModel selMem hm2
      simp [apply_config_change, handle_model_change, hmod, h1, h2,
        hmem, BufferWindowMemory.buffer]

/-- Witness for C5: the scenario given in the spec — window 5 → 3 with ten
existing turns keeps all ten in the transcript and the three most recent
in the context window. -/
theorem claim_C5_witness :
    (apply_config_change (some "sk")
        ⟨[⟨"q1", "r1"⟩, ⟨"q2", "r2"⟩, ⟨"q3", "r3"⟩, ⟨"q4", "r4"⟩, ⟨"q5", "r5"⟩,
          ⟨"q6", "r6"⟩, ⟨"q7", "r7"⟩, ⟨"q8", "r8"⟩, ⟨"q9", "r9"⟩, ⟨"q10", "r10"⟩],
          none, "llama-3.1-8b-instant", 5⟩
        "llama-3.1-8b-instant" 3).1.chat_history.length = 10 ∧
    ∃ conv, (apply_config_change (some "sk")
        ⟨[⟨"q1", "r1"⟩, ⟨"q2", "r2"⟩, ⟨"q3", "r3"⟩, ⟨"q4", "r4"⟩, ⟨"q5", "r5"⟩,
          ⟨"q6", "r6"⟩, ⟨"q7", "r7"⟩, ⟨"q8", "r8"⟩, ⟨"q9", "r9"⟩, ⟨"q10", "r10"⟩],
          none, "llama-3.1-8b-instant", 5⟩
        "llama-3.1-8b-instant" 3).1.conversation = some conv ∧
      conv.memory.buffer = [⟨"q8", "r8"⟩, ⟨"q9", "r9"⟩, ⟨"q10", "r10"⟩] := by
  have h := claim_C5 "sk"
    ⟨[⟨"q1", "r1"⟩, ⟨"q2", "r2"⟩, ⟨"q3", "r3"⟩, ⟨"q4", "r4"⟩, ⟨"q5", "r5"⟩,
      ⟨"q6", "r6"⟩, ⟨"q7", "r7"⟩, ⟨"q8", "r8"⟩, ⟨"q9", "r9"⟩, ⟨"q10", "r10"⟩],
      none, "llama-3.1-8b-instant", 5⟩
    "llama-3.1-8b-instant" 3 (by decide) (by decide) (Or.inr (by decide))
  obtain ⟨-, h2, -, -, conv, h5, h6⟩ := h
  refine ⟨by rw [h2]; decide, conv, h5, ?_⟩
  rw [h6]
  decide

/-- What one run of `main()` (src/app.py lines 101-178) leaves behind,
up to the point where the chat input would be rendered: the session state,
whether a missing-credential error was rendered (lines 147-150 / 170-172),
whether the chat input box was reached (line 176), and any exception that
escaped the run uncaught. -/
structure MainResult where
  state : SessionState
  keyErrorShown : Bool
  chatInputShown : Bool
  uncaught : Option BuildError
deriving DecidableEq, Repr

/-- One run of `main()` after `initialize_session_state`, given the
sidebar selections: apply any configuration change (lines 126-140; a raise
there aborts the run), render the key status (lines 147-150), lazily build
the conversation if unset (lines 159-163; a raise aborts the run), then
gate the chat input on the credential (lines 170-176). -/
def main_run (apiKey : Option String) (st : SessionState)
    (selModel : String) (selMem : Nat) : MainResult :=
  let r1 := apply_config_change apiKey st selModel selMem
  match r1.2 with
  | some e => ⟨r1.1, false, false, some e⟩
  | none =>
      let keyErr := apiKey.isNone
      match r1.1.conversation with
      | none =>
          match create_conversation apiKey r1.1.chat_history r1.1.model
              r1.1.memory_length with
          | .error e => ⟨r1.1, keyErr, false, some e⟩
          | .ok conv =>
              let st2 := { r1.1 with conversation := some conv }
              if apiKey.isNone then ⟨st2, true, false, none⟩
              else ⟨st2, keyErr, true, none⟩
      | some _ =>
          if apiKey.isNone then ⟨r1.1, true, false, none⟩
          else ⟨r1.1, keyErr, true, none⟩

/-- With no credential, a rebuild fails before touching the conversation
handle. -/
theorem handle_model_change_none (st : SessionState) :
    handle_model_change none st = (st, some .CredentialMissing) := rfl

/-- Claim C8, refuted by the code (the spec states the intent): with no
credential every conversation build does fail with `CredentialMissing`,
but the failure is not surfaced with the chat input disabled and the run
intact — the lazy build at src/app.py line 160 runs before the key gate at
line 171, so a fresh no-key run aborts with the construction failure
uncaught; after a sidebar model change (line 128) the abort even precedes
the key status at lines 147-150, so that run renders no error at all.
Evaluated at concrete failing inputs: a fresh no-key run with unchanged
selections, and a no-key run with a model change. -/
theorem claim_C8 :
    create_conversation none [] "llama-3.1-8b-instant" 5
        = Except.error BuildError.CredentialMissing ∧
    (main_run none ⟨[], none, "llama-3.1-8b-instant", 5⟩
        "llama-3.1-8b-instant" 5).uncaught
        = some BuildError.CredentialMissing ∧
    (main_run none ⟨[], none, "llama-3.1-8b-instant", 5⟩
        "llama-3.1-8b-instant" 5).chatInputShown = false ∧
    (main_run none ⟨[], none, "llama-3.1-8b-instant", 5⟩
        "deepseek-r1-distill-qwen-32b" 5).uncaught
        = some BuildError.CredentialMissing ∧
    (main_run none ⟨[], none, "llama-3.1-8b-instant", 5⟩
        "deepseek-r1-distill-qwen-32b" 5).keyErrorShown = false :=
  ⟨rfl, rfl, rfl, rfl, rfl⟩

/-- Claim C9: with a credential present, `create_conversation` fails with
`ConfigurationError` exactly when the model is outside the supported set;
for a supported model and a window in [1,15] it succeeds, and its whole
effect is the returned object — the client bound to the key and model, the
memory holding the transcript — with no remote call made. -/
theorem claim_C9 (key : String) (hist : List Turn) (model : String)
    (k : Nat) (hk1 : 1 ≤ k) (hk15 : k ≤ 15) :
    (model ∉ SUPPORTED_MODELS →
      create_conversation (some key) hist model k
        = .error .ConfigurationError) ∧
    (model ∈ SUPPORTED_MODELS →
      create_conversation (some key) hist model k
        = .ok ⟨⟨key, model⟩, ⟨k, hist⟩⟩) := by
  constructor
  · intro hm
    unfold create_conversation mkChatGroq
    simp [hm]
  · intro hm
    exact create_conversation_ok key hist model k hm

/-- Witness for C9: a foreign model identifier is rejected, a supported
one accepted, at window 5 with a concrete key. -/
theorem claim_C9_witness :
    create_conversation (some "sk") [] "gpt-4o" 5
        = .error .ConfigurationError ∧
    create_conversation (some "sk") [] "llama-3.1-8b-instant" 5
        = .ok ⟨⟨"sk", "llama-3.1-8b-instant"⟩, ⟨5, []⟩⟩ :=
  ⟨(claim_C9 "sk" [] "gpt-4o" 5 (by decide) (by decide)).1 (by decide),
   (claim_C9 "sk" [] "llama-3.1-8b-instant" 5 (by decide) (by decide)).2
     (by decide)⟩

end ChatAssistant
